import Mathlib

/-!
Verification of the filtering-and-derivation pipeline of the
`registroData` dashboard (`src/app.py`).

The app loads a quarterly real-estate table, derives a period date and a
period label per row, filters rows by geographic level, place selection
and year range, resolves per-asset-type column names, and renders two
charts plus a raw table.  Each definition below is a direct translation
of the corresponding Python fragment.
-/

namespace RegistroData

/-- One row of the loaded table.  The columns the pipeline reads:
`ano` (year), `trim` (quarter), `geo` (geographic level label),
`ca` (region name), `prv` (province name). -/
structure Row where
  ano : Int
  trim : Int
  geo : String
  ca : String
  prv : String
deriving DecidableEq

/-- `df['mes_aprox'] = df['trim'] * 3` (app.py line 26). -/
def mes_aprox (trim : Int) : Int :=
  trim * 3

/-- `df['periodo_dt'] = pd.to_datetime(ano + '-' + mes_aprox + '-01')`
(app.py line 27): the resulting timestamp is the first day of month
`mes_aprox trim` of year `ano`, modelled as a (year, month, day) triple. -/
def periodo_dt (ano trim : Int) : Int × Int × Int :=
  (ano, mes_aprox trim, 1)

/-- `df['periodo_lbl'] = ano.astype(str) + "-T" + trim.astype(str)`
(app.py line 30). -/
def periodo_lbl (r : Row) : String :=
  toString r.ano ++ "-T" ++ toString r.trim

/-- Chronological order on (year, quarter) pairs. -/
def chronLt (p q : Int × Int) : Prop :=
  p.1 < q.1 ∨ (p.1 = q.1 ∧ p.2 < q.2)

/-- Chronological order on (year, month, day) dates. -/
def dateLt (a b : Int × Int × Int) : Prop :=
  a.1 < b.1 ∨ (a.1 = b.1 ∧ (a.2.1 < b.2.1 ∨ (a.2.1 = b.2.1 ∧ a.2.2 < b.2.2)))

/-- The asset-type radio options (app.py line 49). -/
inductive TipoProducto where
  | Vivienda
  | Garaje
  | Trastero
deriving DecidableEq

/-- `prefijo = {'Vivienda': 'viv', 'Garaje': 'gar', 'Trastero': 'tras'}[tipo_producto]`
(app.py line 54). -/
def prefijo : TipoProducto → String
  | .Vivienda => "viv"
  | .Garaje => "gar"
  | .Trastero => "tras"

/-- `col_num = f"{prefijo}-num"` (app.py line 95). -/
def col_num (t : TipoProducto) : String :=
  prefijo t ++ "-num"

/-- `col_precio = f"{prefijo}-imp"` (app.py line 96). -/
def col_precio (t : TipoProducto) : String :=
  prefijo t ++ "-imp"

/-- `col_pm2 = f"{prefijo}-pm2"` (app.py line 97). -/
def col_pm2 (t : TipoProducto) : String :=
  prefijo t ++ "-pm2"

/-- The triple of resolved column names for an asset type. -/
def resolve (t : TipoProducto) : String × String × String :=
  (col_num t, col_precio t, col_pm2 t)

/-- `df_nivel = df[df['geo'] == nivel_seleccionado]` (app.py line 62). -/
def dfNivel (rows : List Row) (nivel : String) : List Row :=
  rows.filter (fun r => r.geo == nivel)

/-- The place-selection stage (app.py lines 67-82): National keeps
`df_nivel` whole, Region filters by `ca` membership, any other level
falls into the `else` (Province) branch and filters by `prv` membership. -/
def dfFiltered (rows : List Row) (nivel : String) (seleccion : List String) : List Row :=
  if nivel == "Nacional" then
    dfNivel rows nivel
  else if nivel == "Comunidad" then
    (dfNivel rows nivel).filter (fun r => seleccion.contains r.ca)
  else
    (dfNivel rows nivel).filter (fun r => seleccion.contains r.prv)

/-- `df_filtered = df_filtered[(ano >= years[0]) & (ano <= years[1])]`
(app.py line 88). -/
def filterYears (rows : List Row) (y1 y2 : Int) : List Row :=
  rows.filter (fun r => decide (y1 ≤ r.ano) && decide (r.ano ≤ y2))

/-- The whole filter pipeline: level filter, place filter, year filter
(app.py lines 62-88). -/
def filterPipeline (rows : List Row) (nivel : String) (seleccion : List String)
    (y1 y2 : Int) : List Row :=
  filterYears (dfFiltered rows nivel seleccion) y1 y2

/-- The geographic-level predicate of the pipeline. -/
def pGeo (nivel : String) (r : Row) : Bool :=
  r.geo == nivel

/-- The place-membership predicate of the pipeline (trivially true at the
National level, where `places` is ignored). -/
def pPlace (nivel : String) (seleccion : List String) (r : Row) : Bool :=
  if nivel == "Nacional" then true
  else if nivel == "Comunidad" then seleccion.contains r.ca
  else seleccion.contains r.prv

/-- The year-range predicate of the pipeline. -/
def pYear (y1 y2 : Int) (r : Row) : Bool :=
  decide (y1 ≤ r.ano) && decide (r.ano ≤ y2)

/-- `default=['Madrid', 'Barcelona'] if 'Madrid' in lista_lugares else lista_lugares[:1]`
(app.py line 81): the default place selection at the Province level,
given the sorted distinct province names. -/
def defaultProvincias (lista_lugares : List String) : List String :=
  if lista_lugares.contains "Madrid" then ["Madrid", "Barcelona"]
  else lista_lugares.take 1

/-- `lista_lugares = sorted(df_nivel['prv'].unique())` (app.py line 80):
the distinct province names in lexicographic (code-point) order, which is
how Python's `sorted` compares strings; on distinct names every sorting
algorithm agrees, so insertion sort models `sorted`. -/
def listaLugaresPrv (rows : List Row) : List String :=
  ((rows.map (fun r => r.prv)).dedup).insertionSort (fun a b => a.data ≤ b.data)

/-- Replace a row's `ca` (region name) field by `g r`, leaving every
other column unchanged; used to state that a computation never reads
the `ca` column. -/
def setCa (g : Row → String) (r : Row) : Row :=
  ⟨r.ano, r.trim, r.geo, g r, r.prv⟩

/-- A rendered tab: either a plotly line chart over the given rows with
the given x and y columns, or an inline warning message. -/
inductive TabView where
  | chart (data : List Row) (x y : String)
  | warning (msg : String)
deriving DecidableEq

/-- A dataframe carries its column names together with its rows; the
filter pipeline never changes the set of columns. -/
structure DataFrame where
  cols : List String
  rows : List Row
deriving DecidableEq

/-- The filter pipeline lifted to a dataframe. -/
def filterPipelineDF (df : DataFrame) (nivel : String) (seleccion : List String)
    (y1 y2 : Int) : DataFrame :=
  ⟨df.cols, filterPipeline df.rows nivel seleccion y1 y2⟩

/-- Tab 1, "Número de Operaciones" (app.py lines 112-123): always draws
the volume line chart over the filtered rows. -/
def tab1View (df : DataFrame) (t : TipoProducto) : TabView :=
  .chart df.rows "periodo_dt" (col_num t)

/-- Tab 2, "Precio m²" (app.py lines 125-140): draws the price-per-area
chart when `col_pm2` is among the columns, else shows a warning. -/
def tab2View (df : DataFrame) (t : TipoProducto) : TabView :=
  if df.cols.contains (col_pm2 t) then
    .chart df.rows "periodo_dt" (col_pm2 t)
  else
    .warning ("No se encontró la columna de precio m2 (" ++ col_pm2 t ++ ")")

/-- Decomposition of the pipeline into its three row predicates: the
pipeline filters the input rows by the conjunction of the level, place
and year predicates. -/
theorem filterPipeline_eq_filter (rows : List Row) (n : String) (s : List String)
    (y1 y2 : Int) :
    filterPipeline rows n s y1 y2
      = rows.filter (fun r => pGeo n r && pPlace n s r && pYear y1 y2 r) := by
  unfold filterPipeline dfFiltered dfNivel filterYears pGeo pPlace pYear
  by_cases h1 : n == "Nacional"
  · simp only [h1, if_true]
    rw [List.filter_filter]
    exact List.filter_congr fun r _ => by cases r.geo == n <;> simp
  · by_cases h2 : n == "Comunidad"
    · simp only [h1, h2, if_true, if_false, Bool.false_eq_true, ite_false, ite_true]
      rw [List.filter_filter, List.filter_filter]
      exact List.filter_congr fun r _ => by
        cases r.geo == n <;> cases s.contains r.ca <;> simp
    · simp only [h1, h2, Bool.false_eq_true, ite_false]
      rw [List.filter_filter, List.filter_filter]
      exact List.filter_congr fun r _ => by
        cases r.geo == n <;> cases s.contains r.prv <;> simp

/-- C1: for quarters in {1,2,3,4}, `periodo_dt` is the first day of month
`quarter * 3` of the year, is strictly increasing in the chronological
order of (year, quarter), sends distinct pairs to distinct dates, and
equal pairs to equal dates. -/
theorem periodo_dt_strictly_monotone (y1 q1 y2 q2 : Int)
    (hq1 : 1 ≤ q1) (hq1' : q1 ≤ 4) (hq2 : 1 ≤ q2) (hq2' : q2 ≤ 4) :
    periodo_dt y1 q1 = (y1, q1 * 3, 1)
    ∧ (chronLt (y1, q1) (y2, q2) → dateLt (periodo_dt y1 q1) (periodo_dt y2 q2))
    ∧ ((y1, q1) ≠ (y2, q2) → periodo_dt y1 q1 ≠ periodo_dt y2 q2)
    ∧ ((y1, q1) = (y2, q2) → periodo_dt y1 q1 = periodo_dt y2 q2) := by
  refine ⟨rfl, ?_, ?_, ?_⟩ <;>
    simp [periodo_dt, mes_aprox, chronLt, dateLt, Prod.ext_iff]

/-- Instance of `periodo_dt_strictly_monotone` at (2010, Q1) and (2010, Q2). -/
theorem periodo_dt_strictly_monotone_witness :
    (1 : Int) ≤ 1 ∧ (1 : Int) ≤ 4 ∧ (1 : Int) ≤ 2 ∧ (2 : Int) ≤ 4
    ∧ dateLt (periodo_dt 2010 1) (periodo_dt 2010 2) :=
  ⟨by decide, by decide, by decide, by decide,
    (periodo_dt_strictly_monotone 2010 1 2010 2
      (by decide) (by decide) (by decide) (by decide)).2.1 (Or.inr ⟨rfl, by decide⟩)⟩

/-- C2: the column resolver is total over the asset-type enum and returns
exactly the documented triples. -/
theorem resolve_total_exact :
    resolve .Vivienda = ("viv-num", "viv-imp", "viv-pm2")
    ∧ resolve .Garaje = ("gar-num", "gar-imp", "gar-pm2")
    ∧ resolve .Trastero = ("tras-num", "tras-imp", "tras-pm2")
    ∧ ∀ t : TipoProducto,
        resolve t = (prefijo t ++ "-num", prefijo t ++ "-imp", prefijo t ++ "-pm2") := by
  refine ⟨by decide, by decide, by decide, fun t => rfl⟩

/-- C3: at the National level the pipeline never reads the place
selection: any two selections produce identical output. -/
theorem national_ignores_places (rows : List Row) (P1 P2 : List String) (y1 y2 : Int) :
    filterPipeline rows "Nacional" P1 y1 y2 = filterPipeline rows "Nacional" P2 y1 y2 := by
  simp [filterPipeline, dfFiltered]

/-- C4: at any non-National level (Region, Province, or any other label
taking the Province branch), an empty place selection yields the empty
table — a value, not an error, since the pipeline is a total function. -/
theorem empty_places_empty_result (rows : List Row) (nivel : String) (y1 y2 : Int)
    (h : nivel ≠ "Nacional") :
    filterPipeline rows nivel [] y1 y2 = [] := by
  have hb : (nivel == "Nacional") = false := by simp [h]
  by_cases hc : nivel == "Comunidad" <;>
    simp [filterPipeline, dfFiltered, filterYears, hb, hc, List.contains]

/-- Instance of `empty_places_empty_result` at the Region level. -/
theorem empty_places_empty_result_witness :
    ("Comunidad" : String) ≠ "Nacional"
    ∧ filterPipeline [⟨2010, 1, "Comunidad", "Madrid", ""⟩] "Comunidad" [] 2000 2030 = [] :=
  ⟨by decide, empty_places_empty_result _ "Comunidad" 2000 2030 (by decide)⟩

/-- C5: the year filter keeps a row iff `min_year ≤ year ≤ max_year`
(inclusive at both ends), and on the three example rows the range
(2010, 2010) keeps exactly the first two, labelled "2010-T1" and
"2010-T4". -/
theorem year_range_inclusive :
    (∀ (rows : List Row) (nivel : String) (sel : List String) (y1 y2 : Int) (r : Row),
      r ∈ filterPipeline rows nivel sel y1 y2 ↔
        r ∈ dfFiltered rows nivel sel ∧ (y1 ≤ r.ano ∧ r.ano ≤ y2))
    ∧ filterPipeline
        [⟨2010, 1, "Nacional", "", ""⟩, ⟨2010, 4, "Nacional", "", ""⟩,
          ⟨2011, 1, "Nacional", "", ""⟩] "Nacional" [] 2010 2010
        = [⟨2010, 1, "Nacional", "", ""⟩, ⟨2010, 4, "Nacional", "", ""⟩]
    ∧ periodo_lbl ⟨2010, 1, "Nacional", "", ""⟩ = "2010-T1"
    ∧ periodo_lbl ⟨2010, 4, "Nacional", "", ""⟩ = "2010-T4" := by
  refine ⟨?_, by decide, by decide, by decide⟩
  intro rows nivel sel y1 y2 r
  simp [filterPipeline, filterYears, List.mem_filter]

/-- C6 counterexample: with provinces {Madrid, Sevilla} the default is
["Madrid", "Barcelona"], so "Barcelona" — absent from the table —
appears in the default; with provinces {Alava, Barcelona} the default is
["Alava"], so "Barcelona" — present in the table — does not appear. -/
theorem provincia_default_counterexample :
    ("Barcelona" ∈ defaultProvincias (listaLugaresPrv
        [⟨2010, 1, "Provincia", "", "Madrid"⟩, ⟨2010, 1, "Provincia", "", "Sevilla"⟩])
      ∧ "Barcelona" ∉ listaLugaresPrv
        [⟨2010, 1, "Provincia", "", "Madrid"⟩, ⟨2010, 1, "Provincia", "", "Sevilla"⟩])
    ∧ ("Barcelona" ∈ listaLugaresPrv
        [⟨2010, 1, "Provincia", "", "Alava"⟩, ⟨2010, 1, "Provincia", "", "Barcelona"⟩]
      ∧ "Barcelona" ∉ defaultProvincias (listaLugaresPrv
        [⟨2010, 1, "Provincia", "", "Alava"⟩, ⟨2010, 1, "Provincia", "", "Barcelona"⟩])) := by
  decide

/-- C6 (amended): the Province default is exactly ["Madrid", "Barcelona"]
whenever "Madrid" is among the table's province names, regardless of
whether "Barcelona" is; otherwise it is the first name in sorted order
("Barcelona"'s own presence never influences the default). -/
theorem provincia_default_amended (rows : List Row) :
    ((∃ r ∈ rows, r.prv = "Madrid") →
        defaultProvincias (listaLugaresPrv rows) = ["Madrid", "Barcelona"])
    ∧ ((¬ ∃ r ∈ rows, r.prv = "Madrid") →
        defaultProvincias (listaLugaresPrv rows) = (listaLugaresPrv rows).take 1) := by
  have hmem : ("Madrid" ∈ listaLugaresPrv rows) ↔ ∃ r ∈ rows, r.prv = "Madrid" := by
    simp [listaLugaresPrv, List.mem_insertionSort, List.mem_dedup, List.mem_map]
  constructor
  · intro h
    simp [defaultProvincias, hmem.mpr h]
  · intro h
    have hc : "Madrid" ∉ listaLugaresPrv rows := fun hx => h (hmem.mp hx)
    simp [defaultProvincias, hc]

/-- Instance of `provincia_default_amended` on a table containing Madrid. -/
theorem provincia_default_amended_witness :
    (∃ r ∈ [(⟨2010, 1, "Provincia", "c1", "Madrid"⟩ : Row)], r.prv = "Madrid")
    ∧ defaultProvincias (listaLugaresPrv [⟨2010, 1, "Provincia", "c1", "Madrid"⟩])
        = ["Madrid", "Barcelona"] :=
  ⟨⟨⟨2010, 1, "Provincia", "c1", "Madrid"⟩, by simp, rfl⟩,
    (provincia_default_amended _).1 ⟨⟨2010, 1, "Provincia", "c1", "Madrid"⟩, by simp, rfl⟩⟩

/-- C7: the volume tab always charts the filtered rows, whatever the
column set; when the resolved price-per-area column is missing the price
tab degrades to a warning, and when it is present the price tab charts
the same filtered rows. -/
theorem pm2_missing_degrades (df : DataFrame) (t : TipoProducto) (nivel : String)
    (sel : List String) (y1 y2 : Int) :
    tab1View (filterPipelineDF df nivel sel y1 y2) t
      = .chart (filterPipeline df.rows nivel sel y1 y2) "periodo_dt" (col_num t)
    ∧ (df.cols.contains (col_pm2 t) = false →
        tab2View (filterPipelineDF df nivel sel y1 y2) t
          = .warning ("No se encontró la columna de precio m2 (" ++ col_pm2 t ++ ")"))
    ∧ (df.cols.contains (col_pm2 t) = true →
        tab2View (filterPipelineDF df nivel sel y1 y2) t
          = .chart (filterPipeline df.rows nivel sel y1 y2) "periodo_dt" (col_pm2 t)) := by
  refine ⟨rfl, fun h => ?_, fun h => ?_⟩ <;>
    · have h' := h
      simp at h'
      simp [tab2View, filterPipelineDF, h']

/-- Instance of `pm2_missing_degrades` for Garage on a table lacking
`gar-pm2`: the volume tab still charts the filtered rows and the price
tab shows the warning. -/
theorem pm2_missing_degrades_witness :
    ((["gar-num", "gar-imp"] : List String).contains (col_pm2 .Garaje) = false)
    ∧ tab1View (filterPipelineDF ⟨["gar-num", "gar-imp"], [⟨2010, 1, "Nacional", "", ""⟩]⟩
          "Nacional" [] 2010 2010) .Garaje
        = .chart (filterPipeline [⟨2010, 1, "Nacional", "", ""⟩] "Nacional" [] 2010 2010)
            "periodo_dt" (col_num .Garaje)
    ∧ tab2View (filterPipelineDF ⟨["gar-num", "gar-imp"], [⟨2010, 1, "Nacional", "", ""⟩]⟩
          "Nacional" [] 2010 2010) .Garaje
        = .warning ("No se encontró la columna de precio m2 (" ++ col_pm2 .Garaje ++ ")") :=
  ⟨by decide,
    (pm2_missing_degrades ⟨["gar-num", "gar-imp"], [⟨2010, 1, "Nacional", "", ""⟩]⟩ .Garaje
      "Nacional" [] 2010 2010).1,
    (pm2_missing_degrades ⟨["gar-num", "gar-imp"], [⟨2010, 1, "Nacional", "", ""⟩]⟩ .Garaje
      "Nacional" [] 2010 2010).2.1 (by decide)⟩

/-- C8: the pipeline is idempotent — filtering an already-filtered table
with the same selection changes nothing. -/
theorem filter_idempotent (rows : List Row) (n : String) (s : List String) (y1 y2 : Int) :
    filterPipeline (filterPipeline rows n s y1 y2) n s y1 y2
      = filterPipeline rows n s y1 y2 := by
  simp only [filterPipeline_eq_filter, List.filter_filter]
  exact List.filter_congr fun r _ => Bool.and_self _

/-- C9: the three row predicates of the pipeline commute — applying the
level, place and year filters in any of the six orders produces the
pipeline's output. -/
theorem filter_order_independent (rows : List Row) (n : String) (s : List String)
    (y1 y2 : Int) :
    filterPipeline rows n s y1 y2
        = ((rows.filter (pGeo n)).filter (pPlace n s)).filter (pYear y1 y2)
    ∧ filterPipeline rows n s y1 y2
        = ((rows.filter (pGeo n)).filter (pYear y1 y2)).filter (pPlace n s)
    ∧ filterPipeline rows n s y1 y2
        = ((rows.filter (pPlace n s)).filter (pGeo n)).filter (pYear y1 y2)
    ∧ filterPipeline rows n s y1 y2
        = ((rows.filter (pPlace n s)).filter (pYear y1 y2)).filter (pGeo n)
    ∧ filterPipeline rows n s y1 y2
        = ((rows.filter (pYear y1 y2)).filter (pGeo n)).filter (pPlace n s)
    ∧ filterPipeline rows n s y1 y2
        = ((rows.filter (pYear y1 y2)).filter (pPlace n s)).filter (pGeo n) := by
  refine ⟨?_, ?_, ?_, ?_, ?_, ?_⟩ <;>
    (rw [filterPipeline_eq_filter]; simp only [List.filter_filter];
      exact List.filter_congr fun r _ => by
        simp [Bool.and_comm, Bool.and_assoc, Bool.and_left_comm])

/-- C10: any level label other than the literals "Nacional" and
"Comunidad" takes the Province branch: the place stage filters the
level-filtered rows by `prv` membership, a row survives the pipeline iff
its `geo` equals the label, its `prv` is selected and its year is in
range, and rewriting the `ca` column arbitrarily commutes with the
pipeline — `ca` is never consulted. -/
theorem province_branch_for_other_levels (rows : List Row) (nivel : String)
    (sel : List String) (y1 y2 : Int)
    (h1 : nivel ≠ "Nacional") (h2 : nivel ≠ "Comunidad") :
    dfFiltered rows nivel sel
      = (rows.filter (fun r => r.geo == nivel)).filter (fun r => sel.contains r.prv)
    ∧ (∀ r : Row, r ∈ filterPipeline rows nivel sel y1 y2 ↔
        r ∈ rows ∧ r.geo = nivel ∧ r.prv ∈ sel ∧ (y1 ≤ r.ano ∧ r.ano ≤ y2))
    ∧ ∀ g : Row → String,
        filterPipeline (rows.map (setCa g)) nivel sel y1 y2
          = (filterPipeline rows nivel sel y1 y2).map (setCa g) := by
  have hb1 : (nivel == "Nacional") = false := by simp [h1]
  have hb2 : (nivel == "Comunidad") = false := by simp [h2]
  refine ⟨?_, ?_, ?_⟩
  · simp [dfFiltered, dfNivel, hb1, hb2]
  · intro r
    simp [filterPipeline, filterYears, dfFiltered, dfNivel, hb1, hb2, List.mem_filter]
    tauto
  · intro g
    rw [filterPipeline_eq_filter, filterPipeline_eq_filter, List.filter_map]
    congr 1
    exact List.filter_congr fun r _ => by
      simp [Function.comp, pGeo, pPlace, pYear, setCa, hb1, hb2]

/-- Instance of `province_branch_for_other_levels` at the literal label
"Provincia". -/
theorem province_branch_for_other_levels_witness :
    (("Provincia" : String) ≠ "Nacional") ∧ (("Provincia" : String) ≠ "Comunidad")
    ∧ dfFiltered [⟨2010, 1, "Provincia", "c1", "Madrid"⟩] "Provincia" ["Madrid"]
        = ([(⟨2010, 1, "Provincia", "c1", "Madrid"⟩ : Row)].filter
            (fun r => r.geo == "Provincia")).filter (fun r => ["Madrid"].contains r.prv) :=
  ⟨by decide, by decide,
    (province_branch_for_other_levels _ "Provincia" ["Madrid"] 2010 2010
      (by decide) (by decide)).1⟩

end RegistroData
